import Mathlib

/-!
# Verification of the GP2Y0E02B infrared driver (project-alien-infrared-test-code)

Shallow embedding of `src/lib/infrared/infrared.cpp` / `infrared.h`: a driver
for a GP2Y0E02B infrared distance sensor reached through a PCA9546 4-channel
I2C multiplexer.

The Arduino `Wire` (I2C) transport is an external collaborator; we model it as
an explicit state machine.  A completed bus interaction is logged as a
`BusEvent`, in order, so ordering and framing properties can be stated.  The
bytes a device places on the bus in answer to a `requestFrom` are supplied by
the environment as a `response` list (the device's behaviour is not part of
this driver).  Following the Arduino core library, `Wire.read()` on an empty
receive buffer returns the `int` sentinel `-1` and consumes nothing.

Machine integers are modelled as `Nat`/`Int` with explicit truncation where
the C++ code converts: an assignment of an `int` to a `uint8_t` takes the
value modulo 256, and the `uint16_t distance` assignment takes the value
modulo 65536.
-/

namespace AlienInfrared

/-- One observable interaction on the I2C bus:
`txn addr data` is a completed write transaction
(`beginTransmission addr; write …; endTransmission`) carrying the bytes
`data`; `req addr n` is a `requestFrom(addr, n)`; `rd b` records that a data
byte `b` was consumed from the receive buffer by `Wire.read()`. -/
inductive BusEvent where
  | txn (addr : Nat) (data : List Nat)
  | req (addr : Nat) (count : Nat)
  | rd (b : Nat)
deriving DecidableEq, Repr

/-- State of the Arduino `Wire` object: the receive buffer `rx`, the address
and bytes of the currently open (not yet ended) transmission, and the ordered
log of completed bus events. -/
structure WireState where
  rx : List Nat
  curAddr : Option Nat
  curData : List Nat
  log : List BusEvent
deriving DecidableEq, Repr

/-- A fresh bus: empty receive buffer, no open transmission, empty log. -/
def WireState.init : WireState := ⟨[], none, [], []⟩

/-- Model of `Wire.beginTransmission(address)`: opens a write transaction. -/
def WireState.beginTransmission (w : WireState) (addr : Nat) : WireState :=
  { w with curAddr := some addr, curData := [] }

/-- Model of `Wire.write(byte)`: queues one byte in the open transaction.  The C++
parameter type is `uint8_t`, so the argument is truncated modulo 256. -/
def WireState.write (w : WireState) (b : Nat) : WireState :=
  { w with curData := w.curData ++ [b % 256] }

/-- Model of `Wire.endTransmission()`: completes the open write transaction and logs
it as a single `txn` event carrying exactly the queued bytes. -/
def WireState.endTransmission (w : WireState) : WireState :=
  { w with curAddr := none, curData := [],
           log := w.log ++ [BusEvent.txn (w.curAddr.getD 0) w.curData] }

/-- Model of `Wire.requestFrom(address, count)`: asks the addressed device for `count`
bytes.  The device's answer is the environment-supplied `response`; at most
`count` bytes are delivered into the receive buffer. -/
def WireState.requestFrom (w : WireState) (addr count : Nat)
    (response : List Nat) : WireState :=
  { w with rx := response.take count, log := w.log ++ [BusEvent.req addr count] }

/-- Model of `Wire.available()`: number of bytes waiting in the receive buffer. -/
def WireState.available (w : WireState) : Nat := w.rx.length

/-- Model of `Wire.read()`: pops one byte from the receive buffer, returning it as a
C++ `int`; on an empty buffer it returns the sentinel `-1` and consumes
nothing (Arduino core behaviour). -/
def WireState.read1 (w : WireState) : Int × WireState :=
  match w.rx with
  | [] => (-1, w)
  | b :: rest =>
      ((b : Int), { w with rx := rest, log := w.log ++ [BusEvent.rd b] })

/-- Constant `#define MULTIPLEXER_SLAVE_ADDRESS 0xE0 >> 1` (7-bit address 112). -/
def MULTIPLEXER_SLAVE_ADDRESS : Nat := 0xE0 >>> 1

/-- Constant `#define MULTIPLEXER_CHANNEL_COUNT 4`. -/
def MULTIPLEXER_CHANNEL_COUNT : Nat := 4

/-- Constant `#define IR_SLAVE_ADDRESS 0x80 >> 1` (7-bit address 64). -/
def IR_SLAVE_ADDRESS : Nat := 0x80 >>> 1

/-- Constant `#define IR_SHIFT_REG_ADDRESS 0x35`. -/
def IR_SHIFT_REG_ADDRESS : Nat := 0x35

/-- Constant `#define IR_DISTANCE_REG_ADDRESS 0x5E`. -/
def IR_DISTANCE_REG_ADDRESS : Nat := 0x5E

/-- Constant `#define MAX_IR_RANGE 639`. -/
def MAX_IR_RANGE : Nat := 639

/-- The `Infrared` object's fields (`infrared.h`): `_index` is the sensor's
channel on the multiplexer (`uint8_t`, set at construction), `_shiftValue`
the sensor's shift register value (`uint8_t`, written by `setup()`). -/
structure Infrared where
  _index : Nat
  _shiftValue : Nat
deriving DecidableEq, Repr

/-- Model of `Infrared::Infrared(uint8_t index)`: stores the index (truncated to a
byte, as the parameter type is `uint8_t`); `_shiftValue` is left with the
indeterminate value it had, modelled as an explicit argument `garbage`. -/
def Infrared.mk' (index garbage : Nat) : Infrared :=
  ⟨index % 256, garbage⟩

/-- Model of `Infrared::_setMultiplexer()`: writes the one-byte mask `1 << _index` to
the multiplexer's address in a single transaction. -/
def Infrared._setMultiplexer (s : Infrared) (w : WireState) : WireState :=
  ((w.beginTransmission MULTIPLEXER_SLAVE_ADDRESS).write
      (1 <<< s._index)).endTransmission

/-- The distance expression of `infrared.cpp` line 124 as a function of the
reconstructed 12-bit raw value:
`(raw12 * 10) >> (4 + shiftValue)` (truncating right shift). -/
def distanceFormula (raw12 shiftValue : Nat) : Nat :=
  (raw12 * 10) >>> (4 + shiftValue)

/-- The full decode of line 124: raw12 is `(high << 4) | low`, then
`distanceFormula` is applied. -/
def decodeDistance (high low shiftValue : Nat) : Nat :=
  distanceFormula ((high <<< 4) ||| low) shiftValue

/-- Model of `Infrared::setup()` (minus `Wire.begin()` and the `Serial.println`
diagnostic, which do not touch the modelled state): select the channel,
write the shift register address to the sensor, request one byte, and store
`Wire.read()` into the `uint8_t` field `_shiftValue` (truncation mod 256).
The assignment happens unconditionally, also when no byte is available. -/
def Infrared.setup (s : Infrared) (response : List Nat) (w : WireState) :
    Infrared × WireState :=
  let w := s._setMultiplexer w
  let w := w.beginTransmission IR_SLAVE_ADDRESS
  let w := w.write IR_SHIFT_REG_ADDRESS
  let w := w.endTransmission
  let w := w.requestFrom IR_SLAVE_ADDRESS 1 response
  let p := w.read1
  ({ s with _shiftValue := (p.1 % 256).toNat }, p.2)

/-- Model of `Infrared::read()`: select the channel, write the distance register
address, request 2 bytes; if fewer than 2 are available return `-1`;
otherwise read `high` then `low` (each an `int` stored into a `uint8_t`,
truncation mod 256), compute the `uint16_t` distance (mod 65536), and
return it if below `MAX_IR_RANGE`, else `-1`.  Returns
(result, sensor object after the call, bus state after the call). -/
def Infrared.read (s : Infrared) (response : List Nat) (w : WireState) :
    Int × Infrared × WireState :=
  let w := s._setMultiplexer w
  let w := w.beginTransmission IR_SLAVE_ADDRESS
  let w := w.write IR_DISTANCE_REG_ADDRESS
  let w := w.endTransmission
  let w := w.requestFrom IR_SLAVE_ADDRESS 2 response
  if w.available < 2 then
    (-1, s, w)
  else
    let p1 := w.read1
    let high : Nat := (p1.1 % 256).toNat
    let p2 := p1.2.read1
    let low : Nat := (p2.1 % 256).toNat
    let distance : Nat := decodeDistance high low s._shiftValue % 65536
    (if distance < MAX_IR_RANGE then (distance : Int) else -1, s, p2.2)

/-- Reference fixed-point formula from the GP2Y0E02B data sheet (comment at
`infrared.cpp` lines 36-39, 119-122), in millimetres:
distance(cm) = (high*16 + low)/16/2^shift, so
distance(mm) = floor(((high*16 + low) * 10) / (16 * 2^shift)). -/
def referenceDistance_mm (high low shiftValue : Nat) : Nat :=
  ((high * 16 + low) * 10) / (16 * 2 ^ shiftValue)



theorem toNat_emod256 (a : Nat) : (((a : Nat) : Int) % 256).toNat = a % 256 := by
  omega

theorem read_nil_eq (s : Infrared) (w : WireState) :
    Infrared.read s [] w =
      (-1, s,
        { rx := [], curAddr := none, curData := [],
          log := w.log ++
            [BusEvent.txn MULTIPLEXER_SLAVE_ADDRESS [(1 <<< s._index) % 256],
             BusEvent.txn IR_SLAVE_ADDRESS [IR_DISTANCE_REG_ADDRESS],
             BusEvent.req IR_SLAVE_ADDRESS 2] }) := by
  simp [Infrared.read, Infrared._setMultiplexer, WireState.beginTransmission,
    WireState.write, WireState.endTransmission, WireState.requestFrom,
    WireState.available, WireState.read1, IR_DISTANCE_REG_ADDRESS]

theorem read_one_eq (s : Infrared) (a : Nat) (w : WireState) :
    Infrared.read s [a] w =
      (-1, s,
        { rx := [a], curAddr := none, curData := [],
          log := w.log ++
            [BusEvent.txn MULTIPLEXER_SLAVE_ADDRESS [(1 <<< s._index) % 256],
             BusEvent.txn IR_SLAVE_ADDRESS [IR_DISTANCE_REG_ADDRESS],
             BusEvent.req IR_SLAVE_ADDRESS 2] }) := by
  simp [Infrared.read, Infrared._setMultiplexer, WireState.beginTransmission,
    WireState.write, WireState.endTransmission, WireState.requestFrom,
    WireState.available, WireState.read1, IR_DISTANCE_REG_ADDRESS]

theorem read_cons_eq (s : Infrared) (a b : Nat) (rest : List Nat) (w : WireState) :
    Infrared.read s (a :: b :: rest) w =
      ((if decodeDistance (a % 256) (b % 256) s._shiftValue % 65536 < MAX_IR_RANGE
          then ((decodeDistance (a % 256) (b % 256) s._shiftValue % 65536 : Nat) : Int)
          else -1), s,
        { rx := [], curAddr := none, curData := [],
          log := w.log ++
            [BusEvent.txn MULTIPLEXER_SLAVE_ADDRESS [(1 <<< s._index) % 256],
             BusEvent.txn IR_SLAVE_ADDRESS [IR_DISTANCE_REG_ADDRESS],
             BusEvent.req IR_SLAVE_ADDRESS 2,
             BusEvent.rd a, BusEvent.rd b] }) := by
  simp [Infrared.read, Infrared._setMultiplexer, WireState.beginTransmission,
    WireState.write, WireState.endTransmission, WireState.requestFrom,
    WireState.available, WireState.read1, IR_DISTANCE_REG_ADDRESS, toNat_emod256]



theorem decodeDistance_le (high low shift : Nat) (hh : high < 256) (hl : low < 256) :
    decodeDistance high low shift ≤ 2559 := by
  have hraw : (high <<< 4) ||| low < 4096 := by
    have h1 : high <<< 4 < 4096 := by
      rw [Nat.shiftLeft_eq]
      omega
    have h2 : low < 4096 := by omega
    have := Nat.or_lt_two_pow (n := 12) (by simpa using h1) (by simpa using h2)
    simpa using this
  unfold decodeDistance distanceFormula
  rw [Nat.shiftRight_eq_div_pow]
  have hle : ((high <<< 4) ||| low) * 10 ≤ 40950 := by omega
  calc ((high <<< 4) ||| low) * 10 / 2 ^ (4 + shift)
      ≤ ((high <<< 4) ||| low) * 10 / 2 ^ 4 :=
        Nat.div_le_div_left (Nat.pow_le_pow_right (by omega) (by omega)) (by omega)
    _ ≤ 40950 / 2 ^ 4 := Nat.div_le_div_right hle
    _ = 2559 := by norm_num

/-- C8: halving law of the distance formula of line 124: raising the stored
shift value by one halves the computed distance, with truncation toward
zero. -/
theorem distance_shift_halving (raw12 shift : Nat) :
    distanceFormula raw12 (shift + 1) = distanceFormula raw12 shift / 2 := rfl

/-- C9: for a fixed shift value, the distance formula of line 124 is
monotonically non-decreasing in the reconstructed raw 12-bit value. -/
theorem distance_monotone_in_raw (shift a b : Nat) (h : a ≤ b) :
    distanceFormula a shift ≤ distanceFormula b shift := by
  unfold distanceFormula
  rw [Nat.shiftRight_eq_div_pow, Nat.shiftRight_eq_div_pow]
  exact Nat.div_le_div_right (Nat.mul_le_mul_right _ h)

theorem distance_monotone_in_raw_witness :
    (3 : Nat) ≤ 7 ∧ distanceFormula 3 2 ≤ distanceFormula 7 2 :=
  ⟨by decide, distance_monotone_in_raw 2 3 7 (by decide)⟩

/-- C10: read() never modifies the sensor object: the Infrared record after
any read() call equals the one before, whatever the bus state and the
device's response; and setup() never modifies the channel index. -/
theorem read_preserves_state (s : Infrared) (response : List Nat) (w : WireState) :
    (Infrared.read s response w).2.1 = s ∧
    (Infrared.setup s response w).1._index = s._index := by
  constructor
  · match response with
    | [] => rfl
    | [a] => rfl
    | a :: b :: rest =>
        rw [read_cons_eq]
  · rfl



/-- C3 counterexample: a sensor whose shift value was 2 before setup() does
not keep it when the calibration read returns no data: the field is
overwritten (with 255, the uint8_t truncation of the empty-read sentinel
-1). -/
theorem setup_empty_overwrites_shift_cex :
    (Infrared.setup ⟨0, 2⟩ [] WireState.init).1._shiftValue ≠ 2 ∧
    (Infrared.setup ⟨0, 2⟩ [] WireState.init).1._shiftValue = 255 := by
  decide

/-- C3 amended: if the bus reports no data available after the calibration
read request, setup() reports the condition diagnostically but still
unconditionally assigns Wire.read() to scaleShift, storing 255 (the uint8_t
truncation of the empty-buffer sentinel -1) in place of the prior value. -/
theorem setup_empty_sets_shift_to_255 (s : Infrared) (w : WireState) :
    (Infrared.setup s [] w).1._shiftValue = 255 ∧
    (Infrared.setup s [] w).1._index = s._index := by
  constructor <;> rfl

/-- C5: for every channel index in [0, 3], _setMultiplexer() issues exactly
one bus write transaction, addressed to the multiplexer's fixed 7-bit
address 0xE0 >> 1, whose data is the single byte 1 << index — a one-hot
mask. -/
theorem setMultiplexer_writes_one_hot (idx shift : Nat) (w : WireState)
    (h : idx ≤ 3) :
    (Infrared._setMultiplexer ⟨idx, shift⟩ w).log =
      w.log ++ [BusEvent.txn MULTIPLEXER_SLAVE_ADDRESS [1 <<< idx]] ∧
    1 <<< idx = 2 ^ idx ∧
    MULTIPLEXER_SLAVE_ADDRESS = 0xE0 >>> 1 := by
  have hm : (1 <<< idx) % 256 = 1 <<< idx := by
    interval_cases idx <;> decide
  refine ⟨?_, by rw [Nat.shiftLeft_eq, Nat.one_mul], rfl⟩
  simp [Infrared._setMultiplexer, WireState.beginTransmission, WireState.write,
    WireState.endTransmission, hm]

theorem setMultiplexer_writes_one_hot_witness :
    (2 : Nat) ≤ 3 ∧
    ((Infrared._setMultiplexer ⟨2, 0⟩ WireState.init).log =
      WireState.init.log ++ [BusEvent.txn MULTIPLEXER_SLAVE_ADDRESS [1 <<< 2]] ∧
    1 <<< 2 = 2 ^ 2 ∧
    MULTIPLEXER_SLAVE_ADDRESS = 0xE0 >>> 1) :=
  ⟨by decide, setMultiplexer_writes_one_hot 2 0 WireState.init (by decide)⟩

/-- C6: for every high byte, every low value of at most 15 and every shift,
the bit-shift implementation of line 124 computes exactly the truncated
millimetre form of the data sheet's reference formula
distance(cm) = (high*16 + low)/16/2^shift. -/
theorem decode_refines_reference_formula (high low shift : Nat)
    (_hh : high < 256) (hl : low ≤ 15) :
    decodeDistance high low shift = referenceDistance_mm high low shift := by
  unfold decodeDistance distanceFormula referenceDistance_mm
  have hor : (high <<< 4) ||| low = high * 16 + low := by
    rw [Nat.shiftLeft_eq]
    have := Nat.mul_add_lt_is_or (i := 4) (b := low) (by omega) high
    calc high * 2 ^ 4 ||| low = 2 ^ 4 * high ||| low := by ring_nf
      _ = 2 ^ 4 * high + low := this.symm
      _ = high * 16 + low := by ring
  rw [hor, Nat.shiftRight_eq_div_pow, Nat.pow_add]

theorem decode_refines_reference_formula_witness :
    (0x27 : Nat) < 256 ∧ (0 : Nat) ≤ 15 ∧
    decodeDistance 0x27 0 2 = referenceDistance_mm 0x27 0 2 :=
  ⟨by decide, by decide,
    decode_refines_reference_formula 0x27 0 2 (by decide) (by decide)⟩



theorem mux_addr_ne_ir_addr : MULTIPLEXER_SLAVE_ADDRESS ≠ IR_SLAVE_ADDRESS := by
  decide

/-- C4: whenever fewer than 2 bytes are available after read()'s 2-byte
request, read() returns exactly -1, the call's bus events are just the
channel select, the register-address write and the request (no rd event:
no data byte is consumed), and no distance value is returned. -/
theorem read_short_returns_sentinel (s : Infrared) (response : List Nat)
    (w : WireState) (h : response.length < 2) :
    (Infrared.read s response w).1 = -1 ∧
    (Infrared.read s response w).2.2.log =
      w.log ++ [BusEvent.txn MULTIPLEXER_SLAVE_ADDRESS [(1 <<< s._index) % 256],
                BusEvent.txn IR_SLAVE_ADDRESS [IR_DISTANCE_REG_ADDRESS],
                BusEvent.req IR_SLAVE_ADDRESS 2] ∧
    ∀ b, BusEvent.rd b ∉ ((Infrared.read s response w).2.2.log).drop w.log.length := by
  match response with
  | [] =>
      rw [read_nil_eq]
      refine ⟨rfl, rfl, ?_⟩
      intro b
      rw [List.drop_left]
      simp
  | [a] =>
      rw [read_one_eq]
      refine ⟨rfl, rfl, ?_⟩
      intro b
      rw [List.drop_left]
      simp
  | a :: b :: rest =>
      exact absurd h (by simp)

theorem read_short_returns_sentinel_witness :
    ([42] : List Nat).length < 2 ∧
    ((Infrared.read ⟨1, 2⟩ [42] WireState.init).1 = -1 ∧
    (Infrared.read ⟨1, 2⟩ [42] WireState.init).2.2.log =
      WireState.init.log ++
        [BusEvent.txn MULTIPLEXER_SLAVE_ADDRESS [(1 <<< (1 : Nat)) % 256],
         BusEvent.txn IR_SLAVE_ADDRESS [IR_DISTANCE_REG_ADDRESS],
         BusEvent.req IR_SLAVE_ADDRESS 2] ∧
    ∀ b, BusEvent.rd b ∉
      ((Infrared.read ⟨1, 2⟩ [42] WireState.init).2.2.log).drop
        WireState.init.log.length) :=
  ⟨by decide, read_short_returns_sentinel ⟨1, 2⟩ [42] WireState.init (by decide)⟩

/-- C7: every read() call logs the one-hot channel-select transaction to the
multiplexer as its first bus event — before the register transaction with
the sensor's address, which occurs among the later events of the call —
whatever bus state (and so whatever previously selected channel) the call
starts from; and no second select occurs within the call. -/
theorem read_selects_channel_first (s : Infrared) (response : List Nat)
    (w : WireState) :
    ∃ tail,
      (Infrared.read s response w).2.2.log =
        w.log ++ BusEvent.txn MULTIPLEXER_SLAVE_ADDRESS [(1 <<< s._index) % 256] :: tail ∧
      BusEvent.txn IR_SLAVE_ADDRESS [IR_DISTANCE_REG_ADDRESS] ∈ tail ∧
      ∀ data, BusEvent.txn MULTIPLEXER_SLAVE_ADDRESS data ∉ tail := by
  match response with
  | [] =>
      refine ⟨[BusEvent.txn IR_SLAVE_ADDRESS [IR_DISTANCE_REG_ADDRESS],
               BusEvent.req IR_SLAVE_ADDRESS 2], ?_, by simp, ?_⟩
      · rw [read_nil_eq]
      · intro data
        simp [mux_addr_ne_ir_addr]
  | [a] =>
      refine ⟨[BusEvent.txn IR_SLAVE_ADDRESS [IR_DISTANCE_REG_ADDRESS],
               BusEvent.req IR_SLAVE_ADDRESS 2], ?_, by simp, ?_⟩
      · rw [read_one_eq]
      · intro data
        simp [mux_addr_ne_ir_addr]
  | a :: b :: rest =>
      refine ⟨[BusEvent.txn IR_SLAVE_ADDRESS [IR_DISTANCE_REG_ADDRESS],
               BusEvent.req IR_SLAVE_ADDRESS 2,
               BusEvent.rd a, BusEvent.rd b], ?_, by simp, ?_⟩
      · rw [read_cons_eq]
      · intro data
        simp [mux_addr_ne_ir_addr]



/-- C1: for every pair of bytes received (first byte high, second byte low)
and every stored shift value, read() computes the candidate distance as
decodeDistance — i.e. raw12 = (high << 4) | low and
(raw12 * 10) >> (4 + scaleShift) — and returns it when in range; in
particular high = 0x27, low = 0x00, scaleShift = 2 gives raw12 = 624 and
distance 97 mm, which read() returns. -/
theorem read_decodes_pair_and_example :
    (∀ (s : Infrared) (high low : Nat) (rest : List Nat) (w : WireState),
        high < 256 → low < 256 →
        decodeDistance high low s._shiftValue < MAX_IR_RANGE →
        (Infrared.read s (high :: low :: rest) w).1 =
          (decodeDistance high low s._shiftValue : Int))
    ∧ ((0x27 <<< 4) ||| 0x00 : Nat) = 624
    ∧ decodeDistance 0x27 0x00 2 = 97
    ∧ (Infrared.read ⟨0, 2⟩ [0x27, 0x00] WireState.init).1 = 97 := by
  refine ⟨?_, by decide, by decide, by decide⟩
  intro s high low rest w hh hl hd
  rw [read_cons_eq]
  have h1 : high % 256 = high := Nat.mod_eq_of_lt hh
  have h2 : low % 256 = low := Nat.mod_eq_of_lt hl
  have hle := decodeDistance_le high low s._shiftValue hh hl
  have hmod : decodeDistance high low s._shiftValue % 65536 =
      decodeDistance high low s._shiftValue := Nat.mod_eq_of_lt (by omega)
  simp only [h1, h2, hmod]
  rw [if_pos hd]

theorem read_decodes_pair_and_example_witness :
    (0x31 : Nat) < 256 ∧ (0x05 : Nat) < 256 ∧
    decodeDistance 0x31 0x05 (Infrared._shiftValue ⟨0, 2⟩) < MAX_IR_RANGE ∧
    (Infrared.read ⟨0, 2⟩ [0x31, 0x05] WireState.init).1 =
      (decodeDistance 0x31 0x05 (Infrared._shiftValue ⟨0, 2⟩) : Int) :=
  ⟨by decide, by decide, by decide,
    read_decodes_pair_and_example.1 ⟨0, 2⟩ 0x31 0x05 [] WireState.init
      (by decide) (by decide) (by decide)⟩

/-- C2: read() returns -1 whenever the computed distance reaches 639 and the
computed distance itself otherwise, so every non-sentinel return value lies
in [0, 638]; at the boundary with scaleShift = 2, raw12 = 4090 (bytes 255,
10) is the smallest raw12 whose distance is 639 and yields -1, while bytes
255, 4 give distance 638 and yield 638. -/
theorem read_range_validation :
    (∀ (s : Infrared) (response : List Nat) (w : WireState),
        (Infrared.read s response w).1 = -1 ∨
        (0 ≤ (Infrared.read s response w).1 ∧
         (Infrared.read s response w).1 ≤ 638))
    ∧ (∀ (s : Infrared) (high low : Nat) (rest : List Nat) (w : WireState),
        high < 256 → low < 256 →
        (MAX_IR_RANGE ≤ decodeDistance high low s._shiftValue →
          (Infrared.read s (high :: low :: rest) w).1 = -1)
        ∧ (decodeDistance high low s._shiftValue < MAX_IR_RANGE →
          (Infrared.read s (high :: low :: rest) w).1 =
            (decodeDistance high low s._shiftValue : Int)))
    ∧ ((255 <<< 4) ||| 10 : Nat) = 4090
    ∧ decodeDistance 255 10 2 = 639
    ∧ (∀ r : Nat, distanceFormula r 2 = 639 → 4090 ≤ r)
    ∧ (Infrared.read ⟨0, 2⟩ [255, 10] WireState.init).1 = -1
    ∧ decodeDistance 255 4 2 = 638
    ∧ (Infrared.read ⟨0, 2⟩ [255, 4] WireState.init).1 = 638 := by
  refine ⟨?_, ?_, by decide, by decide, ?_, by decide, by decide, by decide⟩
  · intro s response w
    match response with
    | [] => left; rw [read_nil_eq]
    | [a] => left; rw [read_one_eq]
    | a :: b :: rest =>
        rw [read_cons_eq]
        dsimp only
        by_cases hc :
            decodeDistance (a % 256) (b % 256) s._shiftValue % 65536 < MAX_IR_RANGE
        · right
          rw [if_pos hc]
          unfold MAX_IR_RANGE at hc
          constructor
          · exact Int.ofNat_nonneg _
          · exact_mod_cast Nat.lt_succ_iff.mp hc
        · left
          rw [if_neg hc]
  · intro s high low rest w hh hl
    have h1 : high % 256 = high := Nat.mod_eq_of_lt hh
    have h2 : low % 256 = low := Nat.mod_eq_of_lt hl
    have hle := decodeDistance_le high low s._shiftValue hh hl
    have hmod : decodeDistance high low s._shiftValue % 65536 =
        decodeDistance high low s._shiftValue := Nat.mod_eq_of_lt (by omega)
    constructor
    · intro hbig
      rw [read_cons_eq]
      simp only [h1, h2, hmod]
      rw [if_neg (by omega)]
    · intro hsmall
      rw [read_cons_eq]
      simp only [h1, h2, hmod]
      rw [if_pos hsmall]
  · intro r hr
    unfold distanceFormula at hr
    rw [Nat.shiftRight_eq_div_pow] at hr
    have : 639 * 2 ^ (4 + 2) ≤ r * 10 := by
      have := (Nat.le_div_iff_mul_le (k := 2 ^ (4 + 2)) (by norm_num)).mp hr.ge
      omega
    omega

theorem read_range_validation_witness :
    ((255 : Nat) < 256 ∧ (4 : Nat) < 256 ∧
      (decodeDistance 255 4 (Infrared._shiftValue ⟨0, 2⟩) < MAX_IR_RANGE →
        (Infrared.read ⟨0, 2⟩ [255, 4] WireState.init).1 =
          (decodeDistance 255 4 (Infrared._shiftValue ⟨0, 2⟩) : Int)))
    ∧ (distanceFormula 4090 2 = 639 ∧ (4090 : Nat) ≤ 4090) :=
  ⟨⟨by decide, by decide,
      (read_range_validation.2.1 ⟨0, 2⟩ 255 4 [] WireState.init
        (by decide) (by decide)).2⟩,
    ⟨by decide, read_range_validation.2.2.2.2.1 4090 (by decide)⟩⟩

end AlienInfrared
